import Mathlib

/-!
Verification of the privatemail forwarding pipeline (src/lib.rs and
src/config.rs) against its natural-language specification.

The function `privatemail_handler` is embedded shallowly: the SES client
and the MIME parser (the external crates rusoto_ses and mailparse) are
parameters, Rust panics (unwrap, index out of bounds, the explicit
`panic!` call) are an explicit `HandlerResult.panic` outcome, and the list
of send-email requests actually handed to the SES client is returned
alongside the result so that send attempts can be counted.
-/

namespace Privatemail

/-- Prefix test on `List Char`: `listIsPrefixOf p l` is true when `p` is a
prefix of `l`. -/
def listIsPrefixOf : List Char → List Char → Bool
  | [], _ => true
  | _ :: _, [] => false
  | a :: as, b :: bs => a == b && listIsPrefixOf as bs

/-- Containment test: `listContainsSub p l` is true when `p` occurs as a
contiguous sublist of `l`. -/
def listContainsSub (p : List Char) : List Char → Bool
  | [] => listIsPrefixOf p []
  | c :: cs => listIsPrefixOf p (c :: cs) || listContainsSub p cs

/-- Rust `str::contains(pat)`: `pat` occurs as a substring of `s`
(case-sensitive, exact). -/
def strContainsSub (s pat : String) : Bool :=
  listContainsSub pat.data s.data

/-- One hex digit, lower case, as produced by serde_json for control
characters. -/
def hexDigit (n : Nat) : Char :=
  if n < 10 then Char.ofNat (48 + n) else Char.ofNat (87 + n)

/-- Four-digit lower-case hex rendering of `n < 0x10000`. -/
def hex4 (n : Nat) : String :=
  String.mk [hexDigit (n / 4096 % 16), hexDigit (n / 256 % 16),
             hexDigit (n / 16 % 16), hexDigit (n % 16)]

/-- Escaping of a single character inside a JSON string, as serde_json
performs it. -/
def jsonEscapeChar (c : Char) : String :=
  if c = '"' then "\\\""
  else if c = '\\' then "\\\\"
  else if c = Char.ofNat 8 then "\\b"
  else if c = Char.ofNat 12 then "\\f"
  else if c = '\n' then "\\n"
  else if c = '\r' then "\\r"
  else if c = '\t' then "\\t"
  else if c.toNat < 32 then "\\u" ++ hex4 c.toNat
  else String.singleton c

/-- Escaping of a character sequence, character by character, as
serde_json performs it. -/
def jsonEscapeData : List Char → List Char
  | [] => []
  | c :: cs => (jsonEscapeChar c).data ++ jsonEscapeData cs

/-- Escaping of the characters of a string (without the surrounding
quotes). -/
def jsonEscape (s : String) : String :=
  String.mk (jsonEscapeData s.data)

/-- Serialization `serde_json::to_string` applied to a `&str`: the escaped
characters wrapped in double quotes. -/
def jsonEncodeString (s : String) : String :=
  "\"" ++ jsonEscape s ++ "\""

/-- Struct `LambdaResponse` (src/lib.rs lines 51-63): the outgoing
response passed back by the Lambda. The header `HashMap` is modelled as an
association list. -/
structure LambdaResponse where
  is_base_64_encoded : Bool
  status_code : Nat
  headers : List (String × String)
  body : String
deriving Repr, DecidableEq

/-- Constructor `LambdaResponse::new` (src/lib.rs lines 68-77); the body
is JSON-serialized with `serde_json::to_string`. -/
def LambdaResponse.new (status_code : Nat) (body : String) : LambdaResponse :=
  { is_base_64_encoded := false
    status_code := status_code
    headers := [("content-type", "application/json")]
    body := jsonEncodeString body }

/-- Struct `Verdict` (src/lib.rs lines 136-139). -/
structure Verdict where
  status : String
deriving Repr, DecidableEq

/-- Struct `Receipt` (src/lib.rs lines 126-134); the flattened `other` map
is modelled as an association list. -/
structure Receipt where
  spam_verdict : Verdict
  virus_verdict : Verdict
  other : List (String × String)
deriving Repr, DecidableEq

/-- Struct `CommonHeaders` (src/lib.rs lines 116-124); `other` carries any
further headers (such as a CC header) that serde flattens into a map. -/
structure CommonHeaders where
  subject : String
  return_path : String
  other : List (String × String)
deriving Repr, DecidableEq

/-- Struct `Mail` (src/lib.rs lines 101-114). -/
structure Mail where
  timestamp : String
  source : String
  message_id : String
  destination : List String
  common_headers : CommonHeaders
  other : List (String × String)
deriving Repr, DecidableEq

/-- Struct `EmailReceiptNotification` (src/lib.rs lines 90-99). -/
structure EmailReceiptNotification where
  notification_type : String
  mail : Mail
  receipt : Receipt
  content : String
deriving Repr, DecidableEq

/-- One part of a parsed MIME message, as the handler consumes it: only
`get_body_raw()` is ever called on a subpart, and it returns the raw body
bytes or an error (`none` here models the `Err` case of that mailparse
call). -/
structure MailPart where
  body_raw : Option (List Nat)
deriving Repr, DecidableEq

/-- The result of `mailparse::parse_mail`, as the handler consumes it:
only the field `subparts` is read. A flat (non-multipart) message has no
subparts. -/
structure ParsedMail where
  subparts : List MailPart
deriving Repr, DecidableEq

/-- Decoding `charset::decode_latin1`: each byte becomes the Unicode code
point of the same value. -/
def decode_latin1 (bytes : List Nat) : String :=
  String.mk (bytes.map Char.ofNat)

/-- Struct `PrivatEmailConfig` (src/config.rs lines 25-35). -/
structure PrivatEmailConfig where
  from_email : String
  to_email : String
  black_list : Option (List String)
deriving Repr, DecidableEq

/-- Default config `PrivatEmailConfig::default` (src/config.rs
lines 38-46). -/
def PrivatEmailConfig.default : PrivatEmailConfig :=
  { from_email := "hello@nyah.dev"
    to_email := "nyah@hey.com"
    black_list := none }

/-- Rust `str::split(',')`: split at every comma, keeping empty pieces, so
the empty string yields the single piece `[]`. -/
def splitComma : List Char → List (List Char)
  | [] => [[]]
  | c :: cs =>
    if c = ',' then [] :: splitComma cs
    else match splitComma cs with
      | [] => [[c]]
      | p :: ps => (c :: p) :: ps

/-- Rust `x.replace(' ', "")`: delete every space character. -/
def removeSpaces (x : List Char) : String :=
  String.mk (x.filter (fun c => c ≠ ' '))

/-- Constructor `PrivatEmailConfig::new_from_env` (src/config.rs
lines 51-63). `black_list_env` is the value of the `BLACK_LIST`
environment variable (`none` when unset;
`env::var("BLACK_LIST").unwrap_or_default()` then yields `""`).
`from_email` and `to_email` are the values of `FROM_EMAIL` and `TO_EMAIL`;
the source panics when either is absent, so a constructed config always
carries them. -/
def new_from_env (from_email to_email : String)
    (black_list_env : Option String) : PrivatEmailConfig :=
  let b_list := black_list_env.getD ""
  let black_list := (splitComma b_list.data).map removeSpaces
  { from_email := from_email
    to_email := to_email
    black_list := some black_list }

/-- Struct `rusoto_ses::Content`. -/
structure Content where
  charset : Option String
  data : String
deriving Repr, DecidableEq

/-- Struct `rusoto_ses::Body`. -/
structure SesBody where
  html : Option Content
  text : Option Content
deriving Repr, DecidableEq

/-- Struct `rusoto_ses::Destination`. -/
structure Destination where
  bcc_addresses : Option (List String)
  cc_addresses : Option (List String)
  to_addresses : Option (List String)
deriving Repr, DecidableEq

/-- Struct `rusoto_ses::Message`. -/
structure SesMessage where
  body : SesBody
  subject : Content
deriving Repr, DecidableEq

/-- Struct `rusoto_ses::SendEmailRequest`. -/
structure SendEmailRequest where
  configuration_set_name : Option String
  destination : Destination
  message : SesMessage
  reply_to_addresses : Option (List String)
  return_path : Option String
  return_path_arn : Option String
  source : String
  source_arn : Option String
  tags : Option (List (String × String))
deriving Repr, DecidableEq

/-- Struct `rusoto_ses::SendEmailResponse` as the handler reads it. -/
structure SendEmailResponse where
  message_id : String
deriving Repr, DecidableEq

/-- The Rust panics the handler body can hit (each aborts the process; no
`LambdaResponse` and no error value is ever returned to the caller on
these paths). -/
inductive PanicReason where
  /-- Call `parse_mail(..).unwrap()` on an `Err` (src/lib.rs line 228). -/
  | parseMailFailed
  /-- Index `parsed_mail.subparts[1]` with fewer than two subparts
  (src/lib.rs line 229). -/
  | subpartIndexOutOfBounds
  /-- Call `get_body_raw().unwrap()` on an `Err` (src/lib.rs line 229). -/
  | getBodyRawFailed
  /-- Call `black_list.unwrap_or_else(|| panic!("Missing black list"))`
  on a `None` blacklist (src/lib.rs line 235). -/
  | missingBlackList
deriving Repr, DecidableEq

/-- The observable completion of one handler invocation:
`Ok(LambdaResponse)`, `Err(e)` with the SES error propagated, or a Rust
panic. -/
inductive HandlerResult where
  | ok (resp : LambdaResponse)
  | sendError (e : String)
  | panic (r : PanicReason)
deriving Repr, DecidableEq

/-- The blacklist loop of the handler (src/lib.rs lines 234-246): iterate
the configured rules in order and return the first non-empty rule
contained in the original sender address. -/
def firstBlacklistMatch (original_sender : String) : List String → Option String
  | [] => none
  | email :: rest =>
    if email ≠ "" ∧ strContainsSub original_sender email then some email
    else firstBlacklistMatch original_sender rest

/-- The `SendEmailRequest` literal built by the handler
(src/lib.rs lines 248-271), with every `Default::default()` field
`none`. -/
def ses_email_message (email_config : PrivatEmailConfig)
    (subject original_sender msg_body : String) : SendEmailRequest :=
  { configuration_set_name := none
    destination :=
      { bcc_addresses := none
        cc_addresses := none
        to_addresses := some [email_config.to_email] }
    message :=
      { body :=
          { html := some { charset := none, data := msg_body }
            text := none }
        subject := { charset := none, data := subject } }
    reply_to_addresses := some [original_sender]
    return_path := none
    return_path_arn := none
    source := email_config.from_email
    source_arn := none
    tags := none }

/-- Handler `privatemail_handler` (src/lib.rs lines 182-283), from the
point where the SNS message has been deserialized. `parse_mail` stands for
the external mailparse parser (`none` = `Err`), `ses_send` for the
`send_email` call of the SES client. The second component of the result is
the list of send requests actually handed to the SES client, in order. -/
def privatemail_handler (email_config : PrivatEmailConfig)
    (parse_mail : String → Option ParsedMail)
    (ses_send : SendEmailRequest → Except String SendEmailResponse)
    (sns_message : EmailReceiptNotification) :
    HandlerResult × List SendEmailRequest :=
  if sns_message.receipt.spam_verdict.status = "FAIL"
      ∨ sns_message.receipt.virus_verdict.status = "FAIL" then
    (.ok (LambdaResponse.new 200 "Message contains spam or virus, skipping!"), [])
  else
    let original_sender := sns_message.mail.common_headers.return_path
    let subject := sns_message.mail.common_headers.subject
    match parse_mail sns_message.content with
    | none => (.panic .parseMailFailed, [])
    | some parsed_mail =>
      match parsed_mail.subparts[1]? with
      | none => (.panic .subpartIndexOutOfBounds, [])
      | some part =>
        match part.body_raw with
        | none => (.panic .getBodyRawFailed, [])
        | some mail_content =>
          let msg_body := decode_latin1 mail_content
          match email_config.black_list with
          | none => (.panic .missingBlackList, [])
          | some bl =>
            match firstBlacklistMatch original_sender bl with
            | some email =>
              (.ok (LambdaResponse.new 200
                ("Message is from blacklisted email: " ++ email)), [])
            | none =>
              let req := ses_email_message email_config subject
                original_sender msg_body
              match ses_send req with
              | .ok email_response =>
                (.ok (LambdaResponse.new 200 email_response.message_id), [req])
              | .error error => (.sendError error, [req])

/-- Test fixture: a receipt notification with the given verdict statuses,
whose original message carries a CC header among the flattened common
headers. -/
def sampleMsg (spam virus : String) : EmailReceiptNotification :=
  { notification_type := "Received"
    mail :=
      { timestamp := "2021-01-01T00:00:00.000Z"
        source := "user@achu.soup"
        message_id := "m1"
        destination := ["test@nyah.dev"]
        common_headers :=
          { subject := "Hello"
            return_path := "user@achu.soup"
            other := [("cc", "carol@example.com")] }
        other := [] }
    receipt :=
      { spam_verdict := { status := spam }
        virus_verdict := { status := virus }
        other := [] }
    content := "raw mime bytes" }

/-- Test fixture: a two-subpart parse result (text part, then HTML
part). -/
def sampleParse : String → Option ParsedMail :=
  fun _ => some { subparts := [{ body_raw := some [104, 105] },
                               { body_raw := some [60, 112, 62] }] }

/-- Test fixture: an SES client whose send always succeeds. -/
def sampleSendOk : SendEmailRequest → Except String SendEmailResponse :=
  fun _ => .ok { message_id := "mid-1" }

/-- Test fixture: an SES client whose send always fails. -/
def sampleSendErr : SendEmailRequest → Except String SendEmailResponse :=
  fun _ => .error "ses unavailable"

/-- Test fixture: a config whose blacklist holds the one rule
`achu.soup`. -/
def sampleCfg : PrivatEmailConfig :=
  { from_email := "fufu@achu.soup"
    to_email := "test@nyah.dev"
    black_list := some ["achu.soup"] }

/-- Test fixture: a config with an empty blacklist. -/
def cleanCfg : PrivatEmailConfig :=
  { from_email := "hello@nyah.dev"
    to_email := "nyah@hey.com"
    black_list := some [] }

/-- Test fixture: a config whose blacklist holds an empty rule before the
rule `achu.soup`. -/
def sampleCfg2 : PrivatEmailConfig :=
  { from_email := "fufu@achu.soup"
    to_email := "test@nyah.dev"
    black_list := some ["", "achu.soup"] }

/-- Escaping distributes over list concatenation. -/
theorem jsonEscapeData_append (l1 l2 : List Char) :
    jsonEscapeData (l1 ++ l2) = jsonEscapeData l1 ++ jsonEscapeData l2 := by
  induction l1 with
  | nil => simp [jsonEscapeData]
  | cons c cs ih => simp [jsonEscapeData, ih]

/-- A blacklist-skip response never equals the spam-skip response: the two
body strings differ at character index 9. -/
theorem blacklistResp_ne (e : String) :
    LambdaResponse.new 200 ("Message is from blacklisted email: " ++ e)
      ≠ LambdaResponse.new 200 "Message contains spam or virus, skipping!" := by
  intro h
  have hb := congrArg (fun r => r.body.data) h
  simp only [LambdaResponse.new, jsonEncodeString, jsonEscape, String.data_append,
    jsonEscapeData_append] at hb
  have hp : jsonEscapeData "Message is from blacklisted email: ".data
      = "Message is from blacklisted email: ".data := by decide
  have hq : jsonEscapeData "Message contains spam or virus, skipping!".data
      = "Message contains spam or virus, skipping!".data := by decide
  rw [hp, hq] at hb
  have hb2 : "Message is from blacklisted email: ".data
        ++ (jsonEscapeData e.data ++ "\"".data)
      = "Message contains spam or virus, skipping!".data ++ "\"".data := by
    simp only [List.append_assoc] at hb
    exact List.cons_injective hb
  have h9 := congrArg (fun l => l[9]?) hb2
  simp only [] at h9
  rw [List.getElem?_append_left (by decide), List.getElem?_append_left (by decide)] at h9
  exact absurd h9 (by decide)

/-- An empty rule at the head of the blacklist is skipped. -/
theorem firstBlacklistMatch_cons_empty (s : String) (rest : List String) :
    firstBlacklistMatch s ("" :: rest) = firstBlacklistMatch s rest := by
  simp [firstBlacklistMatch]

/-- When some non-empty rule in the list is contained in the sender, the
blacklist loop finds a match. -/
theorem firstBlacklistMatch_isSome (s r : String) (rules : List String)
    (hr : r ∈ rules) (hne : r ≠ "") (hc : strContainsSub s r = true) :
    (firstBlacklistMatch s rules).isSome = true := by
  induction rules with
  | nil => cases hr
  | cons a as ih =>
    rw [firstBlacklistMatch]
    split
    · rfl
    · rename_i hna
      rcases List.mem_cons.mp hr with h | h
      · exact absurd ⟨h ▸ hne, h ▸ hc⟩ hna
      · exact ih h

/-- A rule returned by the blacklist loop is a non-empty rule contained in
the sender, and it is the first such rule in configured order. -/
theorem firstBlacklistMatch_some_spec (s r : String) (rules : List String)
    (h : firstBlacklistMatch s rules = some r) :
    ∃ i, rules[i]? = some r ∧ r ≠ "" ∧ strContainsSub s r = true
      ∧ ∀ (j : Nat) r', j < i → rules[j]? = some r'
          → ¬(r' ≠ "" ∧ strContainsSub s r' = true) := by
  induction rules generalizing r with
  | nil => simp [firstBlacklistMatch] at h
  | cons a as ih =>
    rw [firstBlacklistMatch] at h
    split at h
    · rename_i ha
      obtain rfl : a = r := by injection h
      exact ⟨0, by simp, ha.1, ha.2, fun j r' hj => absurd hj (Nat.not_lt_zero j)⟩
    · rename_i ha
      obtain ⟨i, hi, hne, hc, hfirst⟩ := ih r h
      refine ⟨i + 1, by simpa using hi, hne, hc, ?_⟩
      intro j r' hj hr'
      match j with
      | 0 =>
        simp only [List.getElem?_cons_zero, Option.some.injEq] at hr'
        exact hr' ▸ ha
      | k + 1 =>
        exact hfirst k r' (Nat.lt_of_succ_lt_succ hj) (by simpa using hr')

/-- Unfolding of the handler on a notification that passes the spam/virus
gate and whose MIME stage succeeds: what remains is the blacklist check
followed by the single send. -/
theorem privatemail_handler_reach (email_config : PrivatEmailConfig)
    (parse_mail : String → Option ParsedMail)
    (ses_send : SendEmailRequest → Except String SendEmailResponse)
    (sns_message : EmailReceiptNotification)
    (pm : ParsedMail) (part : MailPart) (bytes : List Nat) (rules : List String)
    (hgate : ¬(sns_message.receipt.spam_verdict.status = "FAIL"
        ∨ sns_message.receipt.virus_verdict.status = "FAIL"))
    (hparse : parse_mail sns_message.content = some pm)
    (hpart : pm.subparts[1]? = some part)
    (hraw : part.body_raw = some bytes)
    (hbl : email_config.black_list = some rules) :
    privatemail_handler email_config parse_mail ses_send sns_message
      = (match firstBlacklistMatch sns_message.mail.common_headers.return_path rules with
         | some email =>
           ((.ok (LambdaResponse.new 200
              ("Message is from blacklisted email: " ++ email)) : HandlerResult),
            ([] : List SendEmailRequest))
         | none =>
           match ses_send (ses_email_message email_config
               sns_message.mail.common_headers.subject
               sns_message.mail.common_headers.return_path
               (decode_latin1 bytes)) with
           | .ok r => (.ok (LambdaResponse.new 200 r.message_id),
               [ses_email_message email_config
                 sns_message.mail.common_headers.subject
                 sns_message.mail.common_headers.return_path
                 (decode_latin1 bytes)])
           | .error e => (.sendError e,
               [ses_email_message email_config
                 sns_message.mail.common_headers.subject
                 sns_message.mail.common_headers.return_path
                 (decode_latin1 bytes)])) := by
  simp only [privatemail_handler, if_neg hgate, hparse, hpart, hraw, hbl]

/-- Every request in the send trace is the one request built by
`ses_email_message` from the parsed content. -/
theorem trace_mem_eq (email_config : PrivatEmailConfig)
    (parse_mail : String → Option ParsedMail)
    (ses_send : SendEmailRequest → Except String SendEmailResponse)
    (sns_message : EmailReceiptNotification) :
    ∀ req ∈ (privatemail_handler email_config parse_mail ses_send sns_message).2,
      ∃ pm part bytes, parse_mail sns_message.content = some pm
        ∧ pm.subparts[1]? = some part
        ∧ part.body_raw = some bytes
        ∧ req = ses_email_message email_config
            sns_message.mail.common_headers.subject
            sns_message.mail.common_headers.return_path
            (decode_latin1 bytes) := by
  intro req hreq
  simp only [privatemail_handler] at hreq
  split at hreq
  · simp at hreq
  · split at hreq
    · simp at hreq
    · rename_i pm hparse
      split at hreq
      · simp at hreq
      · rename_i part hpart
        split at hreq
        · simp at hreq
        · rename_i bytes hraw
          split at hreq
          · simp at hreq
          · split at hreq
            · simp at hreq
            · split at hreq <;>
              · simp only [List.mem_singleton] at hreq
                exact ⟨pm, part, bytes, hparse, hpart, hraw, hreq⟩

/-- Claim C1: the spam/virus gate rejects — the handler returns the 200
skip response with body `Message contains spam or virus, skipping!` and
attempts no send — if and only if the spam verdict status or the virus
verdict status equals the exact case-sensitive string `FAIL`; every other
status value passes the gate. -/
theorem spam_virus_gate_iff (email_config : PrivatEmailConfig)
    (parse_mail : String → Option ParsedMail)
    (ses_send : SendEmailRequest → Except String SendEmailResponse)
    (sns_message : EmailReceiptNotification) :
    (sns_message.receipt.spam_verdict.status = "FAIL"
        ∨ sns_message.receipt.virus_verdict.status = "FAIL")
      ↔ privatemail_handler email_config parse_mail ses_send sns_message
          = (.ok (LambdaResponse.new 200 "Message contains spam or virus, skipping!"), []) := by
  constructor
  · intro h
    simp only [privatemail_handler, if_pos h]
  · intro h
    by_contra hg
    simp only [privatemail_handler, if_neg hg] at h
    split at h
    · simp at h
    · split at h
      · simp at h
      · split at h
        · simp at h
        · split at h
          · simp at h
          · split at h
            · rename_i email _
              simp only [Prod.mk.injEq, HandlerResult.ok.injEq, and_true] at h
              exact blacklistResp_ne email h
            · split at h <;> simp at h

/-- Claim C2: a notification whose spam or virus verdict status is `FAIL`
is skipped with the fixed 200 response, for every blacklist configuration,
every parser behaviour (the content need not parse as MIME), and every SES
client; the list of send attempts is empty. -/
theorem spam_virus_skip_no_send (email_config : PrivatEmailConfig)
    (parse_mail : String → Option ParsedMail)
    (ses_send : SendEmailRequest → Except String SendEmailResponse)
    (sns_message : EmailReceiptNotification)
    (h : sns_message.receipt.spam_verdict.status = "FAIL"
        ∨ sns_message.receipt.virus_verdict.status = "FAIL") :
    privatemail_handler email_config parse_mail ses_send sns_message
      = (.ok (LambdaResponse.new 200 "Message contains spam or virus, skipping!"), []) := by
  simp only [privatemail_handler, if_pos h]

/-- Witness for claim C2 at a concrete spam-FAIL notification. -/
theorem spam_virus_skip_no_send_witness :
    ((sampleMsg "FAIL" "PASS").receipt.spam_verdict.status = "FAIL"
        ∨ (sampleMsg "FAIL" "PASS").receipt.virus_verdict.status = "FAIL")
    ∧ privatemail_handler sampleCfg sampleParse sampleSendOk (sampleMsg "FAIL" "PASS")
        = (.ok (LambdaResponse.new 200 "Message contains spam or virus, skipping!"), []) :=
  ⟨Or.inl rfl,
   spam_virus_skip_no_send sampleCfg sampleParse sampleSendOk
     (sampleMsg "FAIL" "PASS") (Or.inl rfl)⟩

/-- Claim C3, counterexample to the claim as stated: the sender
`user@achu.soup` contains the configured rule `achu.soup`, yet (a) with a
spam verdict of `FAIL` the outcome is the spam skip, not the blacklist
skip, and (b) with clean verdicts but content the MIME parser rejects, the
outcome is a panic, not the blacklist skip. -/
theorem blacklist_claim_counterexample :
    strContainsSub "user@achu.soup" "achu.soup" = true
    ∧ privatemail_handler sampleCfg sampleParse sampleSendOk (sampleMsg "FAIL" "PASS")
        = (.ok (LambdaResponse.new 200 "Message contains spam or virus, skipping!"), [])
    ∧ LambdaResponse.new 200 "Message contains spam or virus, skipping!"
        ≠ LambdaResponse.new 200 "Message is from blacklisted email: achu.soup"
    ∧ privatemail_handler sampleCfg (fun _ => none) sampleSendOk (sampleMsg "PASS" "PASS")
        = (.panic .parseMailFailed, []) :=
  ⟨rfl, rfl, by decide, rfl⟩

/-- Claim C3 as amended: for a notification that passes the spam/virus
gate and whose MIME stage succeeds (the content parses, subpart index 1
exists and yields a raw body), if the original sender contains some
non-empty configured rule then the outcome is the blacklist skip naming
the first matching rule in configured order; empty rules are skipped and
never match. -/
theorem blacklist_first_match_amended (email_config : PrivatEmailConfig)
    (parse_mail : String → Option ParsedMail)
    (ses_send : SendEmailRequest → Except String SendEmailResponse)
    (sns_message : EmailReceiptNotification)
    (pm : ParsedMail) (part : MailPart) (bytes : List Nat) (rules : List String)
    (hgate : ¬(sns_message.receipt.spam_verdict.status = "FAIL"
        ∨ sns_message.receipt.virus_verdict.status = "FAIL"))
    (hparse : parse_mail sns_message.content = some pm)
    (hpart : pm.subparts[1]? = some part)
    (hraw : part.body_raw = some bytes)
    (hbl : email_config.black_list = some rules)
    (hmatch : ∃ r ∈ rules, r ≠ ""
        ∧ strContainsSub sns_message.mail.common_headers.return_path r = true) :
    (∀ s rest, firstBlacklistMatch s ("" :: rest) = firstBlacklistMatch s rest)
    ∧ ∃ i r, rules[i]? = some r ∧ r ≠ ""
        ∧ strContainsSub sns_message.mail.common_headers.return_path r = true
        ∧ (∀ (j : Nat) r', j < i → rules[j]? = some r'
            → ¬(r' ≠ "" ∧ strContainsSub sns_message.mail.common_headers.return_path r' = true))
        ∧ privatemail_handler email_config parse_mail ses_send sns_message
            = (.ok (LambdaResponse.new 200 ("Message is from blacklisted email: " ++ r)), []) := by
  refine ⟨firstBlacklistMatch_cons_empty, ?_⟩
  obtain ⟨r0, hr0, hne0, hc0⟩ := hmatch
  have hsome := firstBlacklistMatch_isSome
    sns_message.mail.common_headers.return_path r0 rules hr0 hne0 hc0
  obtain ⟨r, hr⟩ := Option.isSome_iff_exists.mp hsome
  obtain ⟨i, hi, hne, hc, hfirst⟩ := firstBlacklistMatch_some_spec _ r rules hr
  refine ⟨i, r, hi, hne, hc, hfirst, ?_⟩
  rw [privatemail_handler_reach email_config parse_mail ses_send sns_message
    pm part bytes rules hgate hparse hpart hraw hbl, hr]

/-- Witness for claim C3 as amended, at a concrete input whose blacklist
holds an empty rule followed by `achu.soup`. -/
theorem blacklist_first_match_amended_witness :
    (∀ s rest, firstBlacklistMatch s ("" :: rest) = firstBlacklistMatch s rest)
    ∧ ∃ i r, (["", "achu.soup"] : List String)[i]? = some r ∧ r ≠ ""
        ∧ strContainsSub (sampleMsg "PASS" "PASS").mail.common_headers.return_path r = true
        ∧ (∀ (j : Nat) r', j < i → (["", "achu.soup"] : List String)[j]? = some r'
            → ¬(r' ≠ "" ∧ strContainsSub (sampleMsg "PASS" "PASS").mail.common_headers.return_path r' = true))
        ∧ privatemail_handler sampleCfg2 sampleParse sampleSendOk (sampleMsg "PASS" "PASS")
            = (.ok (LambdaResponse.new 200 ("Message is from blacklisted email: " ++ r)), []) :=
  blacklist_first_match_amended sampleCfg2 sampleParse sampleSendOk
    (sampleMsg "PASS" "PASS")
    { subparts := [{ body_raw := some [104, 105] }, { body_raw := some [60, 112, 62] }] }
    { body_raw := some [60, 112, 62] } [60, 112, 62] ["", "achu.soup"]
    (by decide) rfl rfl rfl rfl
    ⟨"achu.soup", by decide, by decide, by decide⟩

/-- Claim C4: a notification that passes the spam/virus gate and reaches
and passes the blacklist gate (so its content parsed, subpart index 1
yielded a raw body, and no configured rule matched) produces exactly one
send-email request, whose destination to-addresses are exactly the single
configured `to_email` and whose source is the configured `from_email`. -/
theorem forward_request_unique (email_config : PrivatEmailConfig)
    (parse_mail : String → Option ParsedMail)
    (ses_send : SendEmailRequest → Except String SendEmailResponse)
    (sns_message : EmailReceiptNotification)
    (pm : ParsedMail) (part : MailPart) (bytes : List Nat) (rules : List String)
    (hgate : ¬(sns_message.receipt.spam_verdict.status = "FAIL"
        ∨ sns_message.receipt.virus_verdict.status = "FAIL"))
    (hparse : parse_mail sns_message.content = some pm)
    (hpart : pm.subparts[1]? = some part)
    (hraw : part.body_raw = some bytes)
    (hbl : email_config.black_list = some rules)
    (hnomatch : firstBlacklistMatch sns_message.mail.common_headers.return_path rules
        = none) :
    ∃ req, (privatemail_handler email_config parse_mail ses_send sns_message).2 = [req]
      ∧ req.destination.to_addresses = some [email_config.to_email]
      ∧ req.source = email_config.from_email := by
  refine ⟨ses_email_message email_config sns_message.mail.common_headers.subject
    sns_message.mail.common_headers.return_path (decode_latin1 bytes), ?_, rfl, rfl⟩
  rw [privatemail_handler_reach email_config parse_mail ses_send sns_message
    pm part bytes rules hgate hparse hpart hraw hbl, hnomatch]
  cases ses_send (ses_email_message email_config sns_message.mail.common_headers.subject
    sns_message.mail.common_headers.return_path (decode_latin1 bytes)) <;> rfl

/-- Witness for claim C4 at a concrete clean notification with an empty
blacklist. -/
theorem forward_request_unique_witness :
    ∃ req, (privatemail_handler cleanCfg sampleParse sampleSendOk (sampleMsg "PASS" "PASS")).2
        = [req]
      ∧ req.destination.to_addresses = some [cleanCfg.to_email]
      ∧ req.source = cleanCfg.from_email :=
  forward_request_unique cleanCfg sampleParse sampleSendOk (sampleMsg "PASS" "PASS")
    { subparts := [{ body_raw := some [104, 105] }, { body_raw := some [60, 112, 62] }] }
    { body_raw := some [60, 112, 62] } [60, 112, 62] []
    (by decide) rfl rfl rfl rfl rfl

/-- Claim C5: on a notification with clean verdicts whose content the MIME
parser rejects, the handler panics on the unwrap of the parse result
(aborting the invocation) instead of returning a failure value to the
caller; no send request is produced. -/
theorem parse_failure_panics :
    privatemail_handler cleanCfg (fun _ => none) sampleSendOk (sampleMsg "PASS" "PASS")
      = (.panic .parseMailFailed, []) := rfl

/-- Claim C6: on a flat single-part message (a parse result with no
subparts) the handler panics indexing `subparts[1]` instead of using the
whole body as both the HTML and the text content. -/
theorem flat_mail_panics :
    privatemail_handler cleanCfg (fun _ => some { subparts := [] }) sampleSendOk
      (sampleMsg "PASS" "PASS")
      = (.panic .subpartIndexOutOfBounds, []) := rfl

/-- Claim C7, counterexample to the claim as stated: a forwarded
notification whose original message carries a CC header (in the flattened
common headers) produces a send request whose cc-addresses field is
absent. -/
theorem cc_claim_counterexample :
    (sampleMsg "PASS" "PASS").mail.common_headers.other = [("cc", "carol@example.com")]
    ∧ ((privatemail_handler cleanCfg sampleParse sampleSendOk (sampleMsg "PASS" "PASS")).2.map
        (fun r => r.destination.cc_addresses)) = [none] :=
  ⟨rfl, rfl⟩

/-- Claim C7 as amended: every send request the handler builds has an
absent cc-addresses field, whether or not the original message had a CC
header. -/
theorem cc_always_absent (email_config : PrivatEmailConfig)
    (parse_mail : String → Option ParsedMail)
    (ses_send : SendEmailRequest → Except String SendEmailResponse)
    (sns_message : EmailReceiptNotification) :
    ∀ req ∈ (privatemail_handler email_config parse_mail ses_send sns_message).2,
      req.destination.cc_addresses = none := by
  intro req hreq
  obtain ⟨pm, part, bytes, _, _, _, rfl⟩ :=
    trace_mem_eq email_config parse_mail ses_send sns_message req hreq
  rfl

/-- Witness for claim C7 as amended, at a concrete forwarded
notification. -/
theorem cc_always_absent_witness :
    (ses_email_message cleanCfg "Hello" "user@achu.soup"
      (decode_latin1 [60, 112, 62])).destination.cc_addresses = none :=
  cc_always_absent cleanCfg sampleParse sampleSendOk (sampleMsg "PASS" "PASS")
    (ses_email_message cleanCfg "Hello" "user@achu.soup" (decode_latin1 [60, 112, 62]))
    (by decide)

/-- Claim C8: policy rejections (spam/virus verdict FAIL, blacklist match)
are returned to the caller as successful 200 responses carrying a
human-readable reason, with no send attempt; a failing SES send call is
propagated to the caller as an error, verbatim, after exactly one send
attempt (no local retry). -/
theorem policy_ok_upstream_error (email_config : PrivatEmailConfig)
    (parse_mail : String → Option ParsedMail)
    (ses_send : SendEmailRequest → Except String SendEmailResponse)
    (sns_message : EmailReceiptNotification) :
    ((sns_message.receipt.spam_verdict.status = "FAIL"
        ∨ sns_message.receipt.virus_verdict.status = "FAIL")
      → privatemail_handler email_config parse_mail ses_send sns_message
          = (.ok (LambdaResponse.new 200 "Message contains spam or virus, skipping!"), []))
    ∧ (∀ pm part bytes rules r,
        ¬(sns_message.receipt.spam_verdict.status = "FAIL"
            ∨ sns_message.receipt.virus_verdict.status = "FAIL")
        → parse_mail sns_message.content = some pm
        → pm.subparts[1]? = some part
        → part.body_raw = some bytes
        → email_config.black_list = some rules
        → firstBlacklistMatch sns_message.mail.common_headers.return_path rules = some r
        → privatemail_handler email_config parse_mail ses_send sns_message
            = (.ok (LambdaResponse.new 200 ("Message is from blacklisted email: " ++ r)), []))
    ∧ (∀ pm part bytes rules e,
        ¬(sns_message.receipt.spam_verdict.status = "FAIL"
            ∨ sns_message.receipt.virus_verdict.status = "FAIL")
        → parse_mail sns_message.content = some pm
        → pm.subparts[1]? = some part
        → part.body_raw = some bytes
        → email_config.black_list = some rules
        → firstBlacklistMatch sns_message.mail.common_headers.return_path rules = none
        → ses_send (ses_email_message email_config
            sns_message.mail.common_headers.subject
            sns_message.mail.common_headers.return_path (decode_latin1 bytes)) = .error e
        → privatemail_handler email_config parse_mail ses_send sns_message
            = (.sendError e,
               [ses_email_message email_config sns_message.mail.common_headers.subject
                 sns_message.mail.common_headers.return_path (decode_latin1 bytes)])) := by
  refine ⟨fun h => by simp only [privatemail_handler, if_pos h], ?_, ?_⟩
  · intro pm part bytes rules r hgate hparse hpart hraw hbl hmatch
    rw [privatemail_handler_reach email_config parse_mail ses_send sns_message
      pm part bytes rules hgate hparse hpart hraw hbl, hmatch]
  · intro pm part bytes rules e hgate hparse hpart hraw hbl hnomatch hsend
    rw [privatemail_handler_reach email_config parse_mail ses_send sns_message
      pm part bytes rules hgate hparse hpart hraw hbl, hnomatch, hsend]

/-- Witness for claim C8: the three branches at concrete inputs — a
spam-FAIL notification, a blacklisted sender, and a failing SES client. -/
theorem policy_ok_upstream_error_witness :
    privatemail_handler cleanCfg sampleParse sampleSendOk (sampleMsg "FAIL" "PASS")
      = (.ok (LambdaResponse.new 200 "Message contains spam or virus, skipping!"), [])
    ∧ privatemail_handler sampleCfg sampleParse sampleSendOk (sampleMsg "PASS" "PASS")
      = (.ok (LambdaResponse.new 200 ("Message is from blacklisted email: " ++ "achu.soup")), [])
    ∧ privatemail_handler cleanCfg sampleParse sampleSendErr (sampleMsg "PASS" "PASS")
      = (.sendError "ses unavailable",
         [ses_email_message cleanCfg "Hello" "user@achu.soup" (decode_latin1 [60, 112, 62])]) :=
  ⟨(policy_ok_upstream_error cleanCfg sampleParse sampleSendOk (sampleMsg "FAIL" "PASS")).1
     (Or.inl rfl),
   (policy_ok_upstream_error sampleCfg sampleParse sampleSendOk (sampleMsg "PASS" "PASS")).2.1
     { subparts := [{ body_raw := some [104, 105] }, { body_raw := some [60, 112, 62] }] }
     { body_raw := some [60, 112, 62] } [60, 112, 62] ["achu.soup"] "achu.soup"
     (by decide) rfl rfl rfl rfl (by decide),
   (policy_ok_upstream_error cleanCfg sampleParse sampleSendErr (sampleMsg "PASS" "PASS")).2.2
     { subparts := [{ body_raw := some [104, 105] }, { body_raw := some [60, 112, 62] }] }
     { body_raw := some [60, 112, 62] } [60, 112, 62] [] "ses unavailable"
     (by decide) rfl rfl rfl rfl rfl rfl⟩

/-- Claim C9: every send request the handler builds carries only an HTML
body, namely the Latin-1 decoding of the raw bytes of MIME subpart index 1
of the parsed content, while the text body field is always absent. -/
theorem html_only_body (email_config : PrivatEmailConfig)
    (parse_mail : String → Option ParsedMail)
    (ses_send : SendEmailRequest → Except String SendEmailResponse)
    (sns_message : EmailReceiptNotification) :
    ∀ req ∈ (privatemail_handler email_config parse_mail ses_send sns_message).2,
      req.message.body.text = none
      ∧ ∃ pm part bytes, parse_mail sns_message.content = some pm
          ∧ pm.subparts[1]? = some part
          ∧ part.body_raw = some bytes
          ∧ req.message.body.html = some { charset := none, data := decode_latin1 bytes } := by
  intro req hreq
  obtain ⟨pm, part, bytes, hparse, hpart, hraw, rfl⟩ :=
    trace_mem_eq email_config parse_mail ses_send sns_message req hreq
  exact ⟨rfl, pm, part, bytes, hparse, hpart, hraw, rfl⟩

/-- Witness for claim C9 at a concrete forwarded notification. -/
theorem html_only_body_witness :
    (ses_email_message cleanCfg "Hello" "user@achu.soup"
        (decode_latin1 [60, 112, 62])).message.body.text = none
    ∧ ∃ pm part bytes, sampleParse (sampleMsg "PASS" "PASS").content = some pm
        ∧ pm.subparts[1]? = some part
        ∧ part.body_raw = some bytes
        ∧ (ses_email_message cleanCfg "Hello" "user@achu.soup"
            (decode_latin1 [60, 112, 62])).message.body.html
          = some { charset := none, data := decode_latin1 bytes } :=
  html_only_body cleanCfg sampleParse sampleSendOk (sampleMsg "PASS" "PASS")
    (ses_email_message cleanCfg "Hello" "user@achu.soup" (decode_latin1 [60, 112, 62]))
    (by decide)

/-- Claim C10: `new_from_env` always yields a `some` blacklist; an unset
`BLACK_LIST` variable yields exactly the one empty rule, which never
matches any sender, and the `Missing black list` panic branch of the
handler is unreachable for configs produced by `new_from_env`. -/
theorem new_from_env_black_list_total (f t : String) (env : Option String) :
    (new_from_env f t env).black_list.isSome = true
    ∧ (env = none → (new_from_env f t env).black_list = some [""])
    ∧ (∀ s, firstBlacklistMatch s [""] = none)
    ∧ (∀ parse_mail ses_send sns_message,
        (privatemail_handler (new_from_env f t env) parse_mail ses_send sns_message).1
          ≠ .panic .missingBlackList) := by
  refine ⟨rfl, fun h => by subst h; rfl, fun s => by simp [firstBlacklistMatch], ?_⟩
  intro parse_mail ses_send sns_message h
  simp only [privatemail_handler] at h
  split at h
  · simp at h
  · split at h
    · simp at h
    · split at h
      · simp at h
      · split at h
        · simp at h
        · split at h
          · rename_i heq
            simp [new_from_env] at heq
          · split at h
            · simp at h
            · split at h <;> simp at h

/-- Witness for claim C10 with `BLACK_LIST` unset. -/
theorem new_from_env_black_list_total_witness :
    (new_from_env "hello@nyah.dev" "nyah@hey.com" none).black_list.isSome = true
    ∧ (new_from_env "hello@nyah.dev" "nyah@hey.com" none).black_list = some [""]
    ∧ firstBlacklistMatch "user@achu.soup" [""] = none
    ∧ (privatemail_handler (new_from_env "hello@nyah.dev" "nyah@hey.com" none)
        sampleParse sampleSendOk (sampleMsg "PASS" "PASS")).1
      ≠ .panic .missingBlackList :=
  ⟨(new_from_env_black_list_total "hello@nyah.dev" "nyah@hey.com" none).1,
   (new_from_env_black_list_total "hello@nyah.dev" "nyah@hey.com" none).2.1 rfl,
   (new_from_env_black_list_total "hello@nyah.dev" "nyah@hey.com" none).2.2.1 "user@achu.soup",
   (new_from_env_black_list_total "hello@nyah.dev" "nyah@hey.com" none).2.2.2
     sampleParse sampleSendOk (sampleMsg "PASS" "PASS")⟩

end Privatemail
